import Mathlib

/-!
Shallow embedding of the movieFlix_api authentication / authorization /
user-management layer.

The repository contains four near-duplicate revisions of the Express
service:
* revision A: src/index.js, first copy (validator chains, owner-or-admin
  checks on every personal-data route, bcrypt hashing everywhere);
* revision B: src/index.js, second copy;
* revision C: src/index.js, third copy;
* revision D: src/unnamed/part_001.

Mongoose/Express state is modelled by explicit state passing: the user
collection is a `List User`, each route handler is a pure function from
(authenticated requester, route params, request body, database) to an
HTTP response paired with the post-state database.  HTTP statuses are
`Nat`.  External collaborators that are not part of the repository
(bcrypt, the HMAC primitive inside jsonwebtoken, the passport local
strategy) are modelled from the spec, each with a doc comment saying so.
-/

/-- A stored user document, as created by the `Users.create` calls:
`Username`, `Password` (the stored hash, or whatever the handler put
there), `Email`, `Birthday` (empty string when absent), `FavoriteMovies`
(list of movie id strings), and the `isAdmin` flag read by the
authorization checks (`req.user.isAdmin`). -/
structure User where
  Username : String
  Password : String
  Email : String
  Birthday : String
  FavoriteMovies : List String
  isAdmin : Bool
deriving Repr, DecidableEq

/-- The JSON request body of `POST /users` and `PUT /users/:Username`:
fields `Username`, `Password`, `Email`, `Birthday`. -/
structure UserBody where
  Username : String
  Password : String
  Email : String
  Birthday : String
deriving Repr, DecidableEq

/-- Response bodies of the user routes: a serialized user document
(`res.json(user)`), a JSON `null` (`res.json(updatedUser)` with
`updatedUser === null`), a plain message / error object, or the
express-validator error array (always carried by a 422). -/
inductive Body where
  | userDoc : User → Body
  | nullDoc : Body
  | message : String → Body
  | validationErrors : Body
deriving Repr, DecidableEq

/-- An HTTP response: status code and body. -/
structure Resp where
  status : Nat
  body : Body
deriving Repr, DecidableEq

/-! ### External collaborators, modelled from the spec -/

/-- Modelled from the spec: the Password Hasher external collaborator
(bcrypt, out of scope per section 1; `hash(plaintext) -> opaqueHash`,
section 6).  It is modelled as an injective tagging function whose
output is never equal to its input, which is what the claims about
"one-way hash, never the plaintext" consume.  Salting is not modelled:
no claim depends on two hashes of the same plaintext differing. -/
def bcryptHash (plain : String) : String := "$2b$10$" ++ plain

/-- Modelled from the spec: the Password Hasher's
`verify(plaintext, opaqueHash) -> bool` (section 6), true exactly when
the stored hash is the hash of the plaintext. -/
def bcryptVerify (plain stored : String) : Bool := stored == bcryptHash plain

/-! ### express-validator checks, as configured in the source -/

/-- `validator.isAlphanumeric` on one character: A-Z, a-z, 0-9. -/
def alnumChar (c : Char) : Bool :=
  (('a' ≤ c && c ≤ 'z') || ('A' ≤ c && c ≤ 'Z') || ('0' ≤ c && c ≤ '9'))

/-- `check('Username').isAlphanumeric()`: every character alphanumeric. -/
def alnumStr (s : String) : Bool := s.toList.all alnumChar

/-- Split a character list at a separator character (helper for the
email syntax check). -/
def splitChar : List Char → Char → List (List Char)
  | [], _ => [[]]
  | c :: rest, sep =>
      match splitChar rest sep with
      | [] => if c == sep then [[], []] else [[c]]
      | h :: t => if c == sep then [] :: h :: t else (c :: h) :: t

/-- Modelled from the spec: "email: string (valid email syntax)"
(section 3); the source delegates to `check('Email').isEmail()` of the
external express-validator package.  Simplified to: exactly one `@`,
a nonempty local part, and a domain made of at least two nonempty
dot-separated labels. -/
def isEmailSyntax (s : String) : Bool :=
  match splitChar s.toList '@' with
  | [lp, dom] =>
      (!lp.isEmpty) &&
        (let labels := splitChar dom '.'
         decide (2 ≤ labels.length) && labels.all (fun l => !l.isEmpty))
  | _ => false

/-- `check('movieId').isMongoId()`: a 24-character hex string. -/
def hexChar (c : Char) : Bool :=
  (('0' ≤ c && c ≤ '9') || ('a' ≤ c && c ≤ 'f') || ('A' ≤ c && c ≤ 'F'))

/-- `check('movieId').isMongoId()` of express-validator: 24 hex chars. -/
def isMongoId (s : String) : Bool :=
  (s.length == 24) && s.toList.all hexChar

/-- The registration / profile-update validator chain shared by the
validated revisions:
`check('Username').isLength({min:5})`, `check('Username').isAlphanumeric()`,
`check('Password').not().isEmpty()`, `check('Email').isEmail()`.
True iff the error array is empty. -/
def validRegBody (b : UserBody) : Bool :=
  decide (5 ≤ b.Username.length) && alnumStr b.Username &&
    (b.Password != "") && isEmailSyntax b.Email

/-- The favorites-route validator chain of revisions A and C:
`check('username').notEmpty()`, `check('movieId').isMongoId()`. -/
def validFav (username movieId : String) : Bool :=
  (username != "") && isMongoId movieId

/-! ### The document store (Mongoose calls over the users collection) -/

/-- `Users.findOne({ Username: name })`: first document whose
`Username` equals `name`. -/
def findOneUser (db : List User) (name : String) : Option User :=
  db.find? (fun u => u.Username == name)

/-- Apply `f` to the first document matching `name` (the update half of
`findOneAndUpdate`). -/
def updateFirst : List User → String → (User → User) → List User
  | [], _, _ => []
  | u :: rest, name, f =>
      if u.Username == name then f u :: rest
      else u :: updateFirst rest name f

/-- `Users.findOneAndUpdate({ Username: name }, update, { new: true })`:
returns the updated document (or `none` when no document matches) and
the post-state collection. -/
def findOneAndUpdate (db : List User) (name : String) (f : User → User) :
    Option User × List User :=
  ((findOneUser db name).map f, updateFirst db name f)

/-- Remove the first document matching `name` (the delete half of
`findOneAndDelete`). -/
def removeFirst : List User → String → List User
  | [], _ => []
  | u :: rest, name =>
      if u.Username == name then rest else u :: removeFirst rest name

/-- `Users.findOneAndDelete({ Username: name })`: the deleted document
(or `none`) and the post-state collection. -/
def findOneAndDelete (db : List User) (name : String) :
    Option User × List User :=
  (findOneUser db name, removeFirst db name)

/-- MongoDB `$addToSet`: append the element unless already present. -/
def addToSet (l : List String) (m : String) : List String :=
  if m ∈ l then l else l ++ [m]

/-- MongoDB `$pull`: remove every occurrence of the element. -/
def pullElem (l : List String) (m : String) : List String :=
  l.filter (fun x => x ≠ m)

/-- The `$set` document written by every profile-update handler:
`{ Username, Password, Email, Birthday }` from the request body, with
`pw` standing for whatever the handler put in the `Password` slot (the
bcrypt hash in revisions A and C, the raw `req.body.Password` in
revisions B and D).  `FavoriteMovies` and `isAdmin` are untouched. -/
def setUserFields (w : User) (b : UserBody) (pw : String) : User :=
  { w with Username := b.Username, Password := pw,
           Email := b.Email, Birthday := b.Birthday }

/-- The document created by the registration handlers of revisions
A, B, C: `{ Username, Password: hashedPassword, Email, Birthday }`
(`FavoriteMovies` defaults to `[]`, `isAdmin` to `false`). -/
def newUserOf (b : UserBody) : User :=
  { Username := b.Username, Password := bcryptHash b.Password,
    Email := b.Email, Birthday := b.Birthday,
    FavoriteMovies := [], isAdmin := false }

/-! ### Registration handlers (`POST /users`) -/

/-- Revision A `POST /users` (src/index.js, first copy, lines 144-169):
validator chain then `bcrypt.hash` then `Users.create`, `201 json(user)`;
a duplicate username surfaces as the Mongo 11000 error mapped to 400.
The unique-index duplicate detection is modelled by a lookup, per the
spec invariant "username is globally unique" (section 3). -/
def revA_postUsers (b : UserBody) (db : List User) : Resp × List User :=
  if validRegBody b then
    match findOneUser db b.Username with
    | some _ => (⟨400, Body.message "Username already exists"⟩, db)
    | none => (⟨201, Body.userDoc (newUserOf b)⟩, db ++ [newUserOf b])
  else (⟨422, Body.validationErrors⟩, db)

/-- Revision B `POST /users` (src/index.js, second copy, lines 476-514):
validator chain, explicit `Users.findOne` duplicate check (400), then
`Users.hashPassword` and `Users.create`, `201 json(user)`. -/
def revB_postUsers (b : UserBody) (db : List User) : Resp × List User :=
  if validRegBody b then
    match findOneUser db b.Username with
    | some _ => (⟨400, Body.message "already exists"⟩, db)
    | none => (⟨201, Body.userDoc (newUserOf b)⟩, db ++ [newUserOf b])
  else (⟨422, Body.validationErrors⟩, db)

/-- Revision C `POST /users` (src/index.js, third copy, lines 917-955):
same pipeline as revision B with JSON error bodies. -/
def revC_postUsers (b : UserBody) (db : List User) : Resp × List User :=
  if validRegBody b then
    match findOneUser db b.Username with
    | some _ => (⟨400, Body.message "already exists"⟩, db)
    | none => (⟨201, Body.userDoc (newUserOf b)⟩, db ++ [newUserOf b])
  else (⟨422, Body.validationErrors⟩, db)

/-- Revision D `POST /users` (src/unnamed/part_001, lines 210-232): NO
validator chain at all — duplicate check (400), `bcrypt.hash`,
`Users.create`, `201 json(newUser)`.  (That revision also accepts a
`Name` and an initial `FavoriteMovies` from the body; neither is
examined by any claim, so the document is modelled with the shared
`UserBody` fields, `Birthday` empty and `FavoriteMovies` empty.) -/
def revD_postUsers (b : UserBody) (db : List User) : Resp × List User :=
  match findOneUser db b.Username with
  | some _ => (⟨400, Body.message "already exists"⟩, db)
  | none =>
      let nu : User :=
        { Username := b.Username, Password := bcryptHash b.Password,
          Email := b.Email, Birthday := "", FavoriteMovies := [],
          isAdmin := false }
      (⟨201, Body.userDoc nu⟩, db ++ [nu])

/-! ### Profile update handlers (`PUT /users/:Username`) -/

/-- The `:Username` route-param side of the `PUT /users/:Username`
validator chain of revisions A and C: express-validator's
`check('Username')` validates the field in every request location where
it appears — the body and the route params — so
`check('Username').isLength({min:5})` and
`check('Username').isAlphanumeric()` (src/index.js lines 173-174 and
961-962) also reject a request whose `:Username` param is shorter than
5 characters or not alphanumeric, before the ownership check runs. -/
def validUnameParam (t : String) : Bool :=
  decide (5 ≤ t.length) && alnumStr t

/-- Revision A `PUT /users/:Username` (src/index.js, first copy, lines
171-200): validator chain over the body fields AND the `:Username`
route param (422 when any instance fails), then
`if (req.user.Username !== req.params.Username && !req.user.isAdmin)`
→ 403, then `bcrypt.hash` and `findOneAndUpdate` with the hashed
password, `200 json(updatedUser)` with no null check. -/
def revA_putUser (reqUser : User) (uname : String) (b : UserBody)
    (db : List User) : Resp × List User :=
  if validRegBody b && validUnameParam uname then
    if reqUser.Username ≠ uname ∧ reqUser.isAdmin = false then
      (⟨403, Body.message "Forbidden: Cannot update other users"⟩, db)
    else
      let (upd, db') :=
        findOneAndUpdate db uname
          (fun w => setUserFields w b (bcryptHash b.Password))
      match upd with
      | some w' => (⟨200, Body.userDoc w'⟩, db')
      | none => (⟨200, Body.nullDoc⟩, db')
  else (⟨422, Body.validationErrors⟩, db)

/-- Revision B `PUT /users/:Username` (src/index.js, second copy, lines
516-543): no validator chain;
`if (req.user.Username !== req.params.Username)` → **400**
"Permission denied" (no admin clause); `$set` stores
`req.body.Password` — the raw plaintext; `res.json(updatedUser)`
(status 200, null body when no match). -/
def revB_putUser (reqUser : User) (uname : String) (b : UserBody)
    (db : List User) : Resp × List User :=
  if reqUser.Username ≠ uname then
    (⟨400, Body.message "Permission denied"⟩, db)
  else
    let (upd, db') :=
      findOneAndUpdate db uname (fun w => setUserFields w b b.Password)
    match upd with
    | some w' => (⟨200, Body.userDoc w'⟩, db')
    | none => (⟨200, Body.nullDoc⟩, db')

/-- Revision C `PUT /users/:Username` (src/index.js, third copy, lines
957-996): validator chain over the body fields AND the `:Username`
route param (422 when any instance fails);
`if (req.user.Username !== req.params.Username)` → **400**
"Permission denied" (no admin clause); `Users.hashPassword` then `$set`
with the hash; `res.json(updatedUser)` (200, null body when no match). -/
def revC_putUser (reqUser : User) (uname : String) (b : UserBody)
    (db : List User) : Resp × List User :=
  if validRegBody b && validUnameParam uname then
    if reqUser.Username ≠ uname then
      (⟨400, Body.message "Permission denied"⟩, db)
    else
      let (upd, db') :=
        findOneAndUpdate db uname
          (fun w => setUserFields w b (bcryptHash b.Password))
      match upd with
      | some w' => (⟨200, Body.userDoc w'⟩, db')
      | none => (⟨200, Body.nullDoc⟩, db')
  else (⟨422, Body.validationErrors⟩, db)

/-- Revision D `PUT /users/:Username` (src/unnamed/part_001, lines
234-263): no validator chain;
`if (req.user.Username !== req.params.Username)` → **400**
"Permission denied"; `$set` stores `req.body.Password` — the raw
plaintext; `res.json(updatedUser)` (200, null body when no match). -/
def revD_putUser (reqUser : User) (uname : String) (b : UserBody)
    (db : List User) : Resp × List User :=
  if reqUser.Username ≠ uname then
    (⟨400, Body.message "Permission denied"⟩, db)
  else
    let (upd, db') :=
      findOneAndUpdate db uname (fun w => setUserFields w b b.Password)
    match upd with
    | some w' => (⟨200, Body.userDoc w'⟩, db')
    | none => (⟨200, Body.nullDoc⟩, db')

/-! ### Profile fetch (`GET /users/:username`) -/

/-- Revision C `GET /users/:username` (src/index.js, third copy, lines
1000-1025): `check('username').notEmpty()` (422);
`if (req.user.Username !== req.params.username && !req.user.isAdmin)`
→ 403; `findOne`; 404 when absent; else `200 json(user)`. -/
def revC_getUser (reqUser : User) (uname : String) (db : List User) :
    Resp :=
  if uname != "" then
    if reqUser.Username ≠ uname ∧ reqUser.isAdmin = false then
      ⟨403, Body.message "Not authorized to view this user"⟩
    else
      match findOneUser db uname with
      | some u => ⟨200, Body.userDoc u⟩
      | none => ⟨404, Body.message "User not found"⟩
  else ⟨422, Body.validationErrors⟩

/-! ### Favorites handlers (`POST`/`DELETE /users/:username/movies/:movieId`) -/

/-- Revision A `POST /users/:username/movies/:movieId` (src/index.js,
first copy, lines 203-224): validator chain (422);
`if (req.user.Username !== req.params.username && !req.user.isAdmin)`
→ 403; `findOneAndUpdate` with `$addToSet`;
`res.status(200).json(updatedUser)` with NO null check — a missing user
yields `200` with a JSON `null` body. -/
def revA_addFavorite (reqUser : User) (uname movieId : String)
    (db : List User) : Resp × List User :=
  if validFav uname movieId then
    if reqUser.Username ≠ uname ∧ reqUser.isAdmin = false then
      (⟨403, Body.message "Forbidden: Cannot modify other users favorites"⟩, db)
    else
      let (upd, db') :=
        findOneAndUpdate db uname
          (fun w => { w with FavoriteMovies := addToSet w.FavoriteMovies movieId })
      match upd with
      | some w' => (⟨200, Body.userDoc w'⟩, db')
      | none => (⟨200, Body.nullDoc⟩, db')
  else (⟨422, Body.validationErrors⟩, db)

/-- Revision A `DELETE /users/:username/movies/:movieId` (src/index.js,
first copy, lines 226-247): same shape with `$pull`; again NO null
check after `findOneAndUpdate`. -/
def revA_removeFavorite (reqUser : User) (uname movieId : String)
    (db : List User) : Resp × List User :=
  if validFav uname movieId then
    if reqUser.Username ≠ uname ∧ reqUser.isAdmin = false then
      (⟨403, Body.message "Forbidden: Cannot modify other users favorites"⟩, db)
    else
      let (upd, db') :=
        findOneAndUpdate db uname
          (fun w => { w with FavoriteMovies := pullElem w.FavoriteMovies movieId })
      match upd with
      | some w' => (⟨200, Body.userDoc w'⟩, db')
      | none => (⟨200, Body.nullDoc⟩, db')
  else (⟨422, Body.validationErrors⟩, db)

/-- Revision B `POST /users/:username/movies/:movieId` (src/index.js,
second copy, lines 567-591): no validator chain;
`if (req.user.Username !== req.params.username)` → 403 (NO admin
clause); `$addToSet`; 404 when no user matched; else 200. -/
def revB_addFavorite (reqUser : User) (uname movieId : String)
    (db : List User) : Resp × List User :=
  if reqUser.Username ≠ uname then
    (⟨403, Body.message "Not authorized to update this users favorites"⟩, db)
  else
    let (upd, db') :=
      findOneAndUpdate db uname
        (fun w => { w with FavoriteMovies := addToSet w.FavoriteMovies movieId })
    match upd with
    | some w' => (⟨200, Body.userDoc w'⟩, db')
    | none => (⟨404, Body.message "User not found"⟩, db')

/-- Revision B `DELETE /users/:username/movies/:movieId` (src/index.js,
second copy, lines 594-618): same shape with `$pull`. -/
def revB_removeFavorite (reqUser : User) (uname movieId : String)
    (db : List User) : Resp × List User :=
  if reqUser.Username ≠ uname then
    (⟨403, Body.message "Not authorized to update this users favorites"⟩, db)
  else
    let (upd, db') :=
      findOneAndUpdate db uname
        (fun w => { w with FavoriteMovies := pullElem w.FavoriteMovies movieId })
    match upd with
    | some w' => (⟨200, Body.userDoc w'⟩, db')
    | none => (⟨404, Body.message "User not found"⟩, db')

/-- Revision C `POST /users/:username/movies/:movieId` (src/index.js,
third copy, lines 1060-1092): validator chain (422);
`if (req.user.Username !== req.params.username)` → 403 (NO admin
clause); `$addToSet`; 404 when no user matched; else 200. -/
def revC_addFavorite (reqUser : User) (uname movieId : String)
    (db : List User) : Resp × List User :=
  if validFav uname movieId then
    if reqUser.Username ≠ uname then
      (⟨403, Body.message "Not authorized to update this users favorites"⟩, db)
    else
      let (upd, db') :=
        findOneAndUpdate db uname
          (fun w => { w with FavoriteMovies := addToSet w.FavoriteMovies movieId })
      match upd with
      | some w' => (⟨200, Body.userDoc w'⟩, db')
      | none => (⟨404, Body.message "User not found"⟩, db')
  else (⟨422, Body.validationErrors⟩, db)

/-- Revision C `DELETE /users/:username/movies/:movieId` (src/index.js,
third copy, lines 1095-1127): same shape with `$pull`. -/
def revC_removeFavorite (reqUser : User) (uname movieId : String)
    (db : List User) : Resp × List User :=
  if validFav uname movieId then
    if reqUser.Username ≠ uname then
      (⟨403, Body.message "Not authorized to update this users favorites"⟩, db)
    else
      let (upd, db') :=
        findOneAndUpdate db uname
          (fun w => { w with FavoriteMovies := pullElem w.FavoriteMovies movieId })
      match upd with
      | some w' => (⟨200, Body.userDoc w'⟩, db')
      | none => (⟨404, Body.message "User not found"⟩, db')
  else (⟨422, Body.validationErrors⟩, db)

/-- Revision D `POST /users/:username/movies/:movieId`
(src/unnamed/part_001, lines 289-316): no validator chain;
`if (req.user.Username !== req.params.username)` → 403 (NO admin
clause); `$addToSet`; 404 when no user matched; else 200. -/
def revD_addFavorite (reqUser : User) (uname movieId : String)
    (db : List User) : Resp × List User :=
  if reqUser.Username ≠ uname then
    (⟨403, Body.message "Not authorized to update this users favorites"⟩, db)
  else
    let (upd, db') :=
      findOneAndUpdate db uname
        (fun w => { w with FavoriteMovies := addToSet w.FavoriteMovies movieId })
    match upd with
    | some w' => (⟨200, Body.userDoc w'⟩, db')
    | none => (⟨404, Body.message "User not found"⟩, db')

/-- Revision D `DELETE /users/:username/movies/:movieId`
(src/unnamed/part_001, lines 319-346): same shape with `$pull`. -/
def revD_removeFavorite (reqUser : User) (uname movieId : String)
    (db : List User) : Resp × List User :=
  if reqUser.Username ≠ uname then
    (⟨403, Body.message "Not authorized to update this users favorites"⟩, db)
  else
    let (upd, db') :=
      findOneAndUpdate db uname
        (fun w => { w with FavoriteMovies := pullElem w.FavoriteMovies movieId })
    match upd with
    | some w' => (⟨200, Body.userDoc w'⟩, db')
    | none => (⟨404, Body.message "User not found"⟩, db')

/-! ### Account deletion (`DELETE /users/:username`) -/

/-- Revision A `DELETE /users/:username` (src/index.js, first copy,
lines 250-266): `check('username').notEmpty()` (422);
`if (req.user.Username !== req.params.username && !req.user.isAdmin)`
→ 403; `findOneAndDelete` with its result ignored — always
`200 {message}`. -/
def revA_deleteUser (reqUser : User) (uname : String) (db : List User) :
    Resp × List User :=
  if uname != "" then
    if reqUser.Username ≠ uname ∧ reqUser.isAdmin = false then
      (⟨403, Body.message "Forbidden: Cannot delete other users"⟩, db)
    else
      let (_, db') := findOneAndDelete db uname
      (⟨200, Body.message (uname ++ " was deleted")⟩, db')
  else (⟨422, Body.validationErrors⟩, db)

/-- Revision C `DELETE /users/:username` (src/index.js, third copy,
lines 1130-1157): `check('username').notEmpty()` (422); the same
owner-or-admin 403; `findOneAndDelete`; 404 when no user matched; else
`200 {message}`. -/
def revC_deleteUser (reqUser : User) (uname : String) (db : List User) :
    Resp × List User :=
  if uname != "" then
    if reqUser.Username ≠ uname ∧ reqUser.isAdmin = false then
      (⟨403, Body.message "Not authorized to delete this user"⟩, db)
    else
      let (del, db') := findOneAndDelete db uname
      match del with
      | some _ => (⟨200, Body.message (uname ++ " was deleted.")⟩, db')
      | none => (⟨404, Body.message "User not found"⟩, db')
  else (⟨422, Body.validationErrors⟩, db)

/-! ### JWT issuance (src/auth.js, `generateJWTToken`) -/

/-- The module-level signing secret of src/auth.js line 8. -/
def jwtSecret : String := "your_jwt_secret"

/-- The serialized user object passed to `jwt.sign(user, ...)` in
src/auth.js line 22 (`user.toJSON()` at the call site, src/auth.js line
70): the full document, every stored field included — the spec's
section 4.3 design note records that the source embeds the full user
object in the token.  `FavoriteMovies` is rendered as a
comma-separated string and `isAdmin` via `toString`, which keeps every
key-value pair visible to the claims about response contents. -/
def userJson (u : User) : List (String × String) :=
  [("Username", u.Username), ("Password", u.Password),
   ("Email", u.Email), ("Birthday", u.Birthday),
   ("FavoriteMovies", String.intercalate "," u.FavoriteMovies),
   ("isAdmin", toString u.isAdmin)]

/-- The JWT payload produced by `jwt.sign(user, jwtSecret, { subject:
user.Username, expiresIn: "7d", ... })` (src/auth.js lines 21-27): the
user's claims plus `sub` = `user.Username`, `iat` = the issuance
instant (seconds), `exp` = `iat` + 7 days (jsonwebtoken resolves the
string `"7d"` to 604800 seconds added to `iat`). -/
structure JwtPayload where
  claims : List (String × String)
  sub : String
  iat : Nat
  exp : Nat
deriving Repr, DecidableEq

/-- The signed token as a structured value: the header's fixed
`alg` field (`"HS256"`, src/auth.js line 25), the payload, and the
signature string. -/
structure JwtToken where
  alg : String
  payload : JwtPayload
  sig : String
deriving Repr, DecidableEq

/-- Payload of the token issued for `u` at instant `now`. -/
def jwtPayloadOf (u : User) (now : Nat) : JwtPayload :=
  { claims := userJson u, sub := u.Username,
    iat := now, exp := now + 7 * 24 * 60 * 60 }

/-- Serialization of one claims list entry into the compact payload. -/
def encodeClaims : List (String × String) → String
  | [] => ""
  | (k, v) :: rest => k ++ ":" ++ v ++ ";" ++ encodeClaims rest

/-- Compact serialization of a payload (stands for the base64url JSON
segment of the real token; any fixed injective rendering serves the
claims, which only compare tokens for equality or inspect fields). -/
def encodePayload (p : JwtPayload) : String :=
  encodeClaims p.claims ++ "|sub:" ++ p.sub ++ "|iat:" ++ toString p.iat
    ++ "|exp:" ++ toString p.exp

/-- The fixed serialized header segment of every issued token:
`alg` is always `"HS256"`. -/
def headerSegment : String := "alg:HS256,typ:JWT"

/-- Modelled from the spec: the HMAC-SHA256 primitive inside the
external jsonwebtoken package — per section 4.2 "the signature ... is a
pure function of header+payload+secret (no randomness, no nonce)".
Modelled as a concrete injective pure function of the secret and the
signed message. -/
def hmacSHA256 (secret msg : String) : String :=
  "hmac[" ++ secret ++ "|" ++ msg ++ "]"

/-- `generateJWTToken` (src/auth.js lines 21-27) as a structured token:
fixed `HS256` algorithm, payload as above, signature over
`header.payload` with the module secret. -/
def signJwt (u : User) (now : Nat) : JwtToken :=
  let p := jwtPayloadOf u now
  { alg := "HS256", payload := p,
    sig := hmacSHA256 jwtSecret (headerSegment ++ "." ++ encodePayload p) }

/-- `generateJWTToken` as the compact three-part string
`header.payload.signature` actually returned to the client. -/
def generateJWTToken (u : User) (now : Nat) : String :=
  let p := encodePayload (jwtPayloadOf u now)
  headerSegment ++ "." ++ p ++ "."
    ++ hmacSHA256 jwtSecret (headerSegment ++ "." ++ p)

/-! ### Login (src/auth.js, `POST /login`) -/

/-- Login response bodies: the failure body
`{ message: "Something is not right", user: user }` (where passport
hands the handler `user = false`, modelled as `none`), or the success
body `{ user, token }`. -/
inductive LoginBody where
  | failure : String → Option User → LoginBody
  | success : User → String → LoginBody
deriving Repr, DecidableEq

/-- A login response: status and body. -/
structure LoginResp where
  status : Nat
  body : LoginBody
deriving Repr, DecidableEq

/-- Modelled from the spec: the passport local strategy (the
repository's passport.js is not under src/).  Section 4.1: look up the
identity by exact username; if absent fail; otherwise compare the
plaintext against the stored hash; mismatch fails the same way; on
success produce the user.  Both failure kinds reach the route handler
as the same `(null, false)` pair, modelled as `none`. -/
def localAuthenticate (db : List User) (username password : String) :
    Option User :=
  match findOneUser db username with
  | none => none
  | some u => if bcryptVerify password u.Password then some u else none

/-- `POST /login` (src/auth.js lines 57-75): any strategy failure →
`400 { message: "Something is not right", user }` with `user = false`;
success → `200 { user, token }` with the token signed over the full
user object. -/
def loginHandler (db : List User) (username password : String)
    (now : Nat) : LoginResp :=
  match localAuthenticate db username password with
  | none => ⟨400, LoginBody.failure "Something is not right" none⟩
  | some u => ⟨200, LoginBody.success u (generateJWTToken u now)⟩

/-! ### Helper lemmas -/

/-- The modelled bcrypt hash is never the plaintext it was fed. -/
lemma bcryptHash_ne_plain (p : String) : bcryptHash p ≠ p := by
  intro h
  have h2 := congrArg String.length h
  have h3 : ("$2b$10$" : String).length = 7 := rfl
  rw [bcryptHash, String.length_append, h3] at h2
  omega

/-- An update that fixes the found document leaves the collection
unchanged. -/
lemma updateFirst_eq_self (db : List User) (name : String)
    (f : User → User) (w : User)
    (hfind : findOneUser db name = some w) (hf : f w = w) :
    updateFirst db name f = db := by
  induction db with
  | nil => simp [findOneUser] at hfind
  | cons u rest ih =>
      simp only [findOneUser] at hfind
      simp only [List.find?_cons] at hfind
      by_cases h : u.Username == name
      · rw [h] at hfind
        obtain rfl : u = w := Option.some.inj hfind
        simp [updateFirst, h, hf]
      · have h' : (u.Username == name) = false := by
          simpa using h
        rw [h'] at hfind
        have hfind' : findOneUser rest name = some w := hfind
        simp [updateFirst, h, ih hfind']

lemma revA_addFavorite_denied (u : User) (t mid : String) (db : List User)
    (hval : validFav t mid = true) (hne : u.Username ≠ t)
    (hadm : u.isAdmin = false) :
    (revA_addFavorite u t mid db).1.status = 403 := by
  simp [revA_addFavorite, hval, hne, hadm]

lemma revA_addFavorite_not403 (u : User) (t mid : String) (db : List User)
    (hval : validFav t mid = true)
    (hor : u.Username = t ∨ u.isAdmin = true) :
    (revA_addFavorite u t mid db).1.status ≠ 403 := by
  have hcond : ¬(u.Username ≠ t ∧ u.isAdmin = false) := by
    rcases hor with h | h
    · exact fun hc => hc.1 h
    · exact fun hc => by simp [h] at hc
  cases hf : findOneUser db t <;>
    simp [revA_addFavorite, hval, hcond, findOneAndUpdate, hf]

lemma revA_removeFavorite_denied (u : User) (t mid : String)
    (db : List User) (hval : validFav t mid = true)
    (hne : u.Username ≠ t) (hadm : u.isAdmin = false) :
    (revA_removeFavorite u t mid db).1.status = 403 := by
  simp [revA_removeFavorite, hval, hne, hadm]

lemma revA_removeFavorite_not403 (u : User) (t mid : String)
    (db : List User) (hval : validFav t mid = true)
    (hor : u.Username = t ∨ u.isAdmin = true) :
    (revA_removeFavorite u t mid db).1.status ≠ 403 := by
  have hcond : ¬(u.Username ≠ t ∧ u.isAdmin = false) := by
    rcases hor with h | h
    · exact fun hc => hc.1 h
    · exact fun hc => by simp [h] at hc
  cases hf : findOneUser db t <;>
    simp [revA_removeFavorite, hval, hcond, findOneAndUpdate, hf]

lemma revA_putUser_denied (u : User) (t : String) (b : UserBody)
    (db : List User) (hb : validRegBody b = true)
    (hpt : validUnameParam t = true)
    (hne : u.Username ≠ t) (hadm : u.isAdmin = false) :
    (revA_putUser u t b db).1.status = 403 := by
  simp [revA_putUser, hb, hpt, hne, hadm]

lemma revA_putUser_pass (u : User) (t : String) (b : UserBody)
    (db : List User) (hb : validRegBody b = true)
    (hpt : validUnameParam t = true)
    (hor : u.Username = t ∨ u.isAdmin = true) :
    (revA_putUser u t b db).1.status = 200 := by
  have hcond : ¬(u.Username ≠ t ∧ u.isAdmin = false) := by
    rcases hor with h | h
    · exact fun hc => hc.1 h
    · exact fun hc => by simp [h] at hc
  cases hf : findOneUser db t <;>
    simp [revA_putUser, hb, hpt, hcond, findOneAndUpdate, hf]

lemma revA_deleteUser_denied (u : User) (t : String) (db : List User)
    (ht : (t != "") = true) (hne : u.Username ≠ t)
    (hadm : u.isAdmin = false) :
    (revA_deleteUser u t db).1.status = 403 := by
  simp [revA_deleteUser, ht, hne, hadm]

lemma revA_deleteUser_pass (u : User) (t : String) (db : List User)
    (ht : (t != "") = true) (hor : u.Username = t ∨ u.isAdmin = true) :
    (revA_deleteUser u t db).1.status = 200 := by
  have hcond : ¬(u.Username ≠ t ∧ u.isAdmin = false) := by
    rcases hor with h | h
    · exact fun hc => hc.1 h
    · exact fun hc => by simp [h] at hc
  simp [revA_deleteUser, ht, hcond, findOneAndDelete]

lemma revC_getUser_denied (u : User) (t : String) (db : List User)
    (ht : (t != "") = true) (hne : u.Username ≠ t)
    (hadm : u.isAdmin = false) :
    (revC_getUser u t db).status = 403 := by
  simp [revC_getUser, ht, hne, hadm]

lemma revC_getUser_not403 (u : User) (t : String) (db : List User)
    (ht : (t != "") = true) (hor : u.Username = t ∨ u.isAdmin = true) :
    (revC_getUser u t db).status ≠ 403 := by
  have hcond : ¬(u.Username ≠ t ∧ u.isAdmin = false) := by
    rcases hor with h | h
    · exact fun hc => hc.1 h
    · exact fun hc => by simp [h] at hc
  cases hf : findOneUser db t <;> simp [revC_getUser, ht, hcond, hf]

lemma revC_deleteUser_denied (u : User) (t : String) (db : List User)
    (ht : (t != "") = true) (hne : u.Username ≠ t)
    (hadm : u.isAdmin = false) :
    (revC_deleteUser u t db).1.status = 403 := by
  simp [revC_deleteUser, ht, hne, hadm]

lemma revC_deleteUser_not403 (u : User) (t : String) (db : List User)
    (ht : (t != "") = true) (hor : u.Username = t ∨ u.isAdmin = true) :
    (revC_deleteUser u t db).1.status ≠ 403 := by
  have hcond : ¬(u.Username ≠ t ∧ u.isAdmin = false) := by
    rcases hor with h | h
    · exact fun hc => hc.1 h
    · exact fun hc => by simp [h] at hc
  cases hf : findOneUser db t <;>
    simp [revC_deleteUser, ht, hcond, findOneAndDelete, hf]

lemma revB_addFavorite_denied (u : User) (t mid : String)
    (db : List User) (hne : u.Username ≠ t) :
    (revB_addFavorite u t mid db).1.status = 403 := by
  simp [revB_addFavorite, hne]

lemma revB_addFavorite_not403 (u : User) (t mid : String)
    (db : List User) (heq : u.Username = t) :
    (revB_addFavorite u t mid db).1.status ≠ 403 := by
  cases hf : findOneUser db t <;>
    simp [revB_addFavorite, heq, findOneAndUpdate, hf]

lemma revB_removeFavorite_denied (u : User) (t mid : String)
    (db : List User) (hne : u.Username ≠ t) :
    (revB_removeFavorite u t mid db).1.status = 403 := by
  simp [revB_removeFavorite, hne]

lemma revB_removeFavorite_not403 (u : User) (t mid : String)
    (db : List User) (heq : u.Username = t) :
    (revB_removeFavorite u t mid db).1.status ≠ 403 := by
  cases hf : findOneUser db t <;>
    simp [revB_removeFavorite, heq, findOneAndUpdate, hf]

lemma revC_addFavorite_denied (u : User) (t mid : String)
    (db : List User) (hval : validFav t mid = true)
    (hne : u.Username ≠ t) :
    (revC_addFavorite u t mid db).1.status = 403 := by
  simp [revC_addFavorite, hval, hne]

lemma revC_addFavorite_not403 (u : User) (t mid : String)
    (db : List User) (hval : validFav t mid = true)
    (heq : u.Username = t) :
    (revC_addFavorite u t mid db).1.status ≠ 403 := by
  cases hf : findOneUser db t <;>
    simp [revC_addFavorite, hval, heq, findOneAndUpdate, hf]

lemma revC_removeFavorite_denied (u : User) (t mid : String)
    (db : List User) (hval : validFav t mid = true)
    (hne : u.Username ≠ t) :
    (revC_removeFavorite u t mid db).1.status = 403 := by
  simp [revC_removeFavorite, hval, hne]

lemma revC_removeFavorite_not403 (u : User) (t mid : String)
    (db : List User) (hval : validFav t mid = true)
    (heq : u.Username = t) :
    (revC_removeFavorite u t mid db).1.status ≠ 403 := by
  cases hf : findOneUser db t <;>
    simp [revC_removeFavorite, hval, heq, findOneAndUpdate, hf]

lemma revD_addFavorite_denied (u : User) (t mid : String)
    (db : List User) (hne : u.Username ≠ t) :
    (revD_addFavorite u t mid db).1.status = 403 := by
  simp [revD_addFavorite, hne]

lemma revD_addFavorite_not403 (u : User) (t mid : String)
    (db : List User) (heq : u.Username = t) :
    (revD_addFavorite u t mid db).1.status ≠ 403 := by
  cases hf : findOneUser db t <;>
    simp [revD_addFavorite, heq, findOneAndUpdate, hf]

lemma revD_removeFavorite_denied (u : User) (t mid : String)
    (db : List User) (hne : u.Username ≠ t) :
    (revD_removeFavorite u t mid db).1.status = 403 := by
  simp [revD_removeFavorite, hne]

lemma revD_removeFavorite_not403 (u : User) (t mid : String)
    (db : List User) (heq : u.Username = t) :
    (revD_removeFavorite u t mid db).1.status ≠ 403 := by
  cases hf : findOneUser db t <;>
    simp [revD_removeFavorite, heq, findOneAndUpdate, hf]

lemma revB_putUser_denied (u : User) (t : String) (b : UserBody)
    (db : List User) (hne : u.Username ≠ t) :
    (revB_putUser u t b db).1 = ⟨400, Body.message "Permission denied"⟩ := by
  simp [revB_putUser, hne]

lemma revB_putUser_pass (u : User) (t : String) (b : UserBody)
    (db : List User) (heq : u.Username = t) :
    (revB_putUser u t b db).1.status = 200 := by
  cases hf : findOneUser db t <;>
    simp [revB_putUser, heq, findOneAndUpdate, hf]

lemma revC_putUser_denied (u : User) (t : String) (b : UserBody)
    (db : List User) (hb : validRegBody b = true)
    (hpt : validUnameParam t = true)
    (hne : u.Username ≠ t) :
    (revC_putUser u t b db).1 = ⟨400, Body.message "Permission denied"⟩ := by
  simp [revC_putUser, hb, hpt, hne]

lemma revC_putUser_pass (u : User) (t : String) (b : UserBody)
    (db : List User) (hb : validRegBody b = true)
    (hpt : validUnameParam t = true)
    (heq : u.Username = t) :
    (revC_putUser u t b db).1.status = 200 := by
  cases hf : findOneUser db t <;>
    simp [revC_putUser, hb, hpt, heq, findOneAndUpdate, hf]

lemma revD_putUser_denied (u : User) (t : String) (b : UserBody)
    (db : List User) (hne : u.Username ≠ t) :
    (revD_putUser u t b db).1 = ⟨400, Body.message "Permission denied"⟩ := by
  simp [revD_putUser, hne]

lemma revD_putUser_pass (u : User) (t : String) (b : UserBody)
    (db : List User) (heq : u.Username = t) :
    (revD_putUser u t b db).1.status = 200 := by
  cases hf : findOneUser db t <;>
    simp [revD_putUser, heq, findOneAndUpdate, hf]

/-! ### Concrete fixtures for counterexamples and witnesses -/

/-- An admin account. -/
def exAdmin : User :=
  { Username := "rootadmin", Password := bcryptHash "adminpw",
    Email := "root@x.com", Birthday := "", FavoriteMovies := [],
    isAdmin := true }

/-- A regular account. -/
def exAlice : User :=
  { Username := "alice77", Password := bcryptHash "Secret123",
    Email := "alice@x.com", Birthday := "", FavoriteMovies := [],
    isAdmin := false }

/-- A regular account distinct from `exAlice`. -/
def exBob : User :=
  { Username := "bobby55", Password := bcryptHash "bobpw",
    Email := "bob@x.com", Birthday := "", FavoriteMovies := [],
    isAdmin := false }

/-- A well-formed Mongo object id. -/
def exMid : String := "0123456789abcdef01234567"

/-- A request body passing the validator chain. -/
def exBody : UserBody :=
  { Username := "alice77", Password := "NewSecret9",
    Email := "alice@x.com", Birthday := "" }

/-! ### C1 -/

/-- C1 counterexample: on the revision-C favorites-add endpoint
(src/index.js lines 1060-1092, cited by the claim) an admin requester
targeting another username is denied with 403, although the claim says
every such request is allowed when `R.isAdmin` is true, uniformly
across the personal-data endpoints. -/
theorem C1_counterexample_admin_denied_on_favorites :
    exAdmin.isAdmin = true ∧ exAdmin.Username ≠ "alice77" ∧
    (revC_addFavorite exAdmin "alice77" exMid [exAlice]).1.status = 403 := by
  refine ⟨rfl, by decide, ?_⟩
  decide

/-- C1 (amended): the ownership-or-admin rule holds on profile fetch,
account deletion and every revision-A personal-data route, but the
favorites add/remove handlers of revisions B, C, D and the profile
update handlers of revisions B, C, D allow only the exact owner — an
admin targeting another user is denied there (with 403 on favorites and
400 on profile update).  For valid route/body inputs (including the
`:Username` route param, which the revision A and C update validators
also check): the request passes the authorization check iff the stated
condition. -/
theorem C1_amended_ownership_policy_by_endpoint
    (u : User) (t mid : String) (b : UserBody) (db : List User)
    (hval : validFav t mid = true) (hb : validRegBody b = true)
    (hpt : validUnameParam t = true) :
    (((revA_addFavorite u t mid db).1.status ≠ 403) ↔
        (u.Username = t ∨ u.isAdmin = true))
  ∧ (((revA_removeFavorite u t mid db).1.status ≠ 403) ↔
        (u.Username = t ∨ u.isAdmin = true))
  ∧ (((revA_putUser u t b db).1.status ≠ 403) ↔
        (u.Username = t ∨ u.isAdmin = true))
  ∧ (((revA_deleteUser u t db).1.status ≠ 403) ↔
        (u.Username = t ∨ u.isAdmin = true))
  ∧ (((revC_getUser u t db).status ≠ 403) ↔
        (u.Username = t ∨ u.isAdmin = true))
  ∧ (((revC_deleteUser u t db).1.status ≠ 403) ↔
        (u.Username = t ∨ u.isAdmin = true))
  ∧ (((revB_addFavorite u t mid db).1.status ≠ 403) ↔ u.Username = t)
  ∧ (((revB_removeFavorite u t mid db).1.status ≠ 403) ↔ u.Username = t)
  ∧ (((revC_addFavorite u t mid db).1.status ≠ 403) ↔ u.Username = t)
  ∧ (((revC_removeFavorite u t mid db).1.status ≠ 403) ↔ u.Username = t)
  ∧ (((revD_addFavorite u t mid db).1.status ≠ 403) ↔ u.Username = t)
  ∧ (((revD_removeFavorite u t mid db).1.status ≠ 403) ↔ u.Username = t)
  ∧ (((revB_putUser u t b db).1.status ≠ 400) ↔ u.Username = t)
  ∧ (((revC_putUser u t b db).1.status ≠ 400) ↔ u.Username = t)
  ∧ (((revD_putUser u t b db).1.status ≠ 400) ↔ u.Username = t) := by
  have ht : (t != "") = true := by
    have h := hval
    simp only [validFav, Bool.and_eq_true] at h
    exact h.1
  refine ⟨?_, ?_, ?_, ?_, ?_, ?_, ?_, ?_, ?_, ?_, ?_, ?_, ?_, ?_, ?_⟩
  · constructor
    · intro hne
      by_cases h1 : u.Username = t
      · exact Or.inl h1
      · by_cases h2 : u.isAdmin = true
        · exact Or.inr h2
        · exact absurd (revA_addFavorite_denied u t mid db hval h1
            (by simpa using h2)) hne
    · exact revA_addFavorite_not403 u t mid db hval
  · constructor
    · intro hne
      by_cases h1 : u.Username = t
      · exact Or.inl h1
      · by_cases h2 : u.isAdmin = true
        · exact Or.inr h2
        · exact absurd (revA_removeFavorite_denied u t mid db hval h1
            (by simpa using h2)) hne
    · exact revA_removeFavorite_not403 u t mid db hval
  · constructor
    · intro hne
      by_cases h1 : u.Username = t
      · exact Or.inl h1
      · by_cases h2 : u.isAdmin = true
        · exact Or.inr h2
        · exact absurd (revA_putUser_denied u t b db hb hpt h1
            (by simpa using h2)) hne
    · intro hor
      rw [revA_putUser_pass u t b db hb hpt hor]
      decide
  · constructor
    · intro hne
      by_cases h1 : u.Username = t
      · exact Or.inl h1
      · by_cases h2 : u.isAdmin = true
        · exact Or.inr h2
        · exact absurd (revA_deleteUser_denied u t db ht h1
            (by simpa using h2)) hne
    · intro hor
      rw [revA_deleteUser_pass u t db ht hor]
      decide
  · constructor
    · intro hne
      by_cases h1 : u.Username = t
      · exact Or.inl h1
      · by_cases h2 : u.isAdmin = true
        · exact Or.inr h2
        · exact absurd (revC_getUser_denied u t db ht h1
            (by simpa using h2)) hne
    · exact revC_getUser_not403 u t db ht
  · constructor
    · intro hne
      by_cases h1 : u.Username = t
      · exact Or.inl h1
      · by_cases h2 : u.isAdmin = true
        · exact Or.inr h2
        · exact absurd (revC_deleteUser_denied u t db ht h1
            (by simpa using h2)) hne
    · exact revC_deleteUser_not403 u t db ht
  · constructor
    · intro hne
      by_contra h1
      exact hne (revB_addFavorite_denied u t mid db h1)
    · exact revB_addFavorite_not403 u t mid db
  · constructor
    · intro hne
      by_contra h1
      exact hne (revB_removeFavorite_denied u t mid db h1)
    · exact revB_removeFavorite_not403 u t mid db
  · constructor
    · intro hne
      by_contra h1
      exact hne (revC_addFavorite_denied u t mid db hval h1)
    · exact revC_addFavorite_not403 u t mid db hval
  · constructor
    · intro hne
      by_contra h1
      exact hne (revC_removeFavorite_denied u t mid db hval h1)
    · exact revC_removeFavorite_not403 u t mid db hval
  · constructor
    · intro hne
      by_contra h1
      exact hne (revD_addFavorite_denied u t mid db h1)
    · exact revD_addFavorite_not403 u t mid db
  · constructor
    · intro hne
      by_contra h1
      exact hne (revD_removeFavorite_denied u t mid db h1)
    · exact revD_removeFavorite_not403 u t mid db
  · constructor
    · intro hne
      by_contra h1
      exact hne (by rw [revB_putUser_denied u t b db h1])
    · intro heq
      rw [revB_putUser_pass u t b db heq]
      decide
  · constructor
    · intro hne
      by_contra h1
      exact hne (by rw [revC_putUser_denied u t b db hb hpt h1])
    · intro heq
      rw [revC_putUser_pass u t b db hb hpt heq]
      decide
  · constructor
    · intro hne
      by_contra h1
      exact hne (by rw [revD_putUser_denied u t b db h1])
    · intro heq
      rw [revD_putUser_pass u t b db heq]
      decide

/-- Witness for C1 (amended) at a concrete input: the hypotheses hold
for the fixture data, and the revision-C favorites-add component of the
conclusion is extracted at that input. -/
theorem C1_amended_ownership_policy_by_endpoint_witness :
    validFav "alice77" exMid = true ∧ validRegBody exBody = true ∧
    validUnameParam "alice77" = true ∧
    (((revC_addFavorite exAlice "alice77" exMid [exAlice]).1.status ≠ 403) ↔
      exAlice.Username = "alice77") :=
  ⟨by decide, by decide, by decide,
    (C1_amended_ownership_policy_by_endpoint exAlice "alice77" exMid exBody
      [exAlice] (by decide) (by decide) (by decide)).2.2.2.2.2.2.2.2.1⟩

/-! ### C2 -/

/-- C2 counterexample: the revision-C `PUT /users/:Username` handler
(src/index.js lines 966-973, cited by the claim) denies a request whose
body and `:Username` route param both pass the validator chain, made by
a non-owner non-admin, with status 400 ("Permission denied"), not 403 —
refuting "the response status is 403, never 400 or 401" for ownership
denials. -/
theorem C2_counterexample_put_denial_is_400 :
    validRegBody exBody = true ∧ validUnameParam "alice77" = true ∧
    exBob.Username ≠ "alice77" ∧ exBob.isAdmin = false ∧
    (revC_putUser exBob "alice77" exBody [exAlice]).1.status = 400 := by
  refine ⟨by decide, by decide, by decide, rfl, ?_⟩
  decide

/-- C2 (amended): an ownership denial returns 403 on the favorites
add/remove routes of every revision, on profile fetch, on account
deletion, and on revision A's profile update — but the profile-update
handlers of revisions B, C and D return 400 with "Permission denied"
on denial (the revision A and C update handlers reach the ownership
check only when the `:Username` route param also passes their
validator chain).  No denial returns 401. -/
theorem C2_amended_denial_statuses
    (u : User) (t mid : String) (b : UserBody) (db : List User)
    (hval : validFav t mid = true) (hb : validRegBody b = true)
    (hpt : validUnameParam t = true)
    (hne : u.Username ≠ t) (hadm : u.isAdmin = false) :
    (revA_addFavorite u t mid db).1.status = 403
  ∧ (revA_removeFavorite u t mid db).1.status = 403
  ∧ (revA_putUser u t b db).1.status = 403
  ∧ (revA_deleteUser u t db).1.status = 403
  ∧ (revC_getUser u t db).status = 403
  ∧ (revC_deleteUser u t db).1.status = 403
  ∧ (revB_addFavorite u t mid db).1.status = 403
  ∧ (revB_removeFavorite u t mid db).1.status = 403
  ∧ (revC_addFavorite u t mid db).1.status = 403
  ∧ (revC_removeFavorite u t mid db).1.status = 403
  ∧ (revD_addFavorite u t mid db).1.status = 403
  ∧ (revD_removeFavorite u t mid db).1.status = 403
  ∧ (revB_putUser u t b db).1 = ⟨400, Body.message "Permission denied"⟩
  ∧ (revC_putUser u t b db).1 = ⟨400, Body.message "Permission denied"⟩
  ∧ (revD_putUser u t b db).1 = ⟨400, Body.message "Permission denied"⟩
  ∧ (∀ t2 : String, validUnameParam t2 = false →
      (revA_putUser u t2 b db).1.status = 422
      ∧ (revC_putUser u t2 b db).1.status = 422) := by
  have ht : (t != "") = true := by
    have h := hval
    simp only [validFav, Bool.and_eq_true] at h
    exact h.1
  refine ⟨revA_addFavorite_denied u t mid db hval hne hadm,
    revA_removeFavorite_denied u t mid db hval hne hadm,
    revA_putUser_denied u t b db hb hpt hne hadm,
    revA_deleteUser_denied u t db ht hne hadm,
    revC_getUser_denied u t db ht hne hadm,
    revC_deleteUser_denied u t db ht hne hadm,
    revB_addFavorite_denied u t mid db hne,
    revB_removeFavorite_denied u t mid db hne,
    revC_addFavorite_denied u t mid db hval hne,
    revC_removeFavorite_denied u t mid db hval hne,
    revD_addFavorite_denied u t mid db hne,
    revD_removeFavorite_denied u t mid db hne,
    revB_putUser_denied u t b db hne,
    revC_putUser_denied u t b db hb hpt hne,
    revD_putUser_denied u t b db hne, ?_⟩
  intro t2 ht2
  exact ⟨by simp [revA_putUser, ht2], by simp [revC_putUser, ht2]⟩

/-- Witness for C2 (amended) at a concrete input: the hypotheses hold
for the fixture data, and the revision-A favorites-add component of
the conclusion is extracted at that input. -/
theorem C2_amended_denial_statuses_witness :
    validFav "alice77" exMid = true ∧ validRegBody exBody = true ∧
    validUnameParam "alice77" = true ∧
    exBob.Username ≠ "alice77" ∧ exBob.isAdmin = false ∧
    (revA_addFavorite exBob "alice77" exMid [exAlice]).1.status = 403 :=
  ⟨by decide, by decide, by decide, by decide, rfl,
    (C2_amended_denial_statuses exBob "alice77" exMid exBody [exAlice]
      (by decide) (by decide) (by decide) (by decide) rfl).1⟩

/-! ### C3 -/

/-- The spec's end-to-end registration body:
`alice01 / Secret123 / alice@x.com`. -/
def regAlice : UserBody :=
  { Username := "alice01", Password := "Secret123",
    Email := "alice@x.com", Birthday := "" }

/-- C3 counterexample: registering `alice01/Secret123/alice@x.com`
yields a 201 whose body is the full created document — the handlers
serialize the record as-is (`res.status(201).json(user)`,
src/index.js line 161), so the serialized response carries a
`Password` field holding the stored hash, and the token payload
(`jwt.sign(user, ...)`, src/auth.js line 22, over the full user
object) embeds the same `Password` hash field — refuting "the stored
password hash field does not appear" and "the registration response
contains no password field". -/
theorem C3_counterexample_password_hash_in_responses :
    (revA_postUsers regAlice []).1 = ⟨201, Body.userDoc (newUserOf regAlice)⟩
  ∧ ("Password", bcryptHash "Secret123") ∈ userJson (newUserOf regAlice)
  ∧ ("Password", bcryptHash "Secret123")
      ∈ (jwtPayloadOf (newUserOf regAlice) 1000).claims := by
  refine ⟨?_, ?_, ?_⟩
  · decide
  · decide
  · decide

/-- C3 (amended): the plaintext password never appears as the
`Password` field of any client-visible artifact, but the stored
`Password` hash field does appear in all of them: the 201 registration
response and the login response serialize the full user record, and
the JWT payload embeds the full user object, each including the
`Password` field whose value is the bcrypt hash. -/
theorem C3_amended_full_record_serialized
    (b : UserBody) (db : List User) (now : Nat)
    (hval : validRegBody b = true)
    (hfree : findOneUser db b.Username = none) :
    (revA_postUsers b db).1 = ⟨201, Body.userDoc (newUserOf b)⟩
  ∧ ("Password", bcryptHash b.Password) ∈ userJson (newUserOf b)
  ∧ (newUserOf b).Password ≠ b.Password
  ∧ ("Password", bcryptHash b.Password) ∈ (jwtPayloadOf (newUserOf b) now).claims
  ∧ (∀ (db2 : List User) (n pw : String) (w : User),
      localAuthenticate db2 n pw = some w →
        (loginHandler db2 n pw now).body
            = LoginBody.success w (generateJWTToken w now)
          ∧ ("Password", w.Password) ∈ userJson w) := by
  refine ⟨?_, ?_, ?_, ?_, ?_⟩
  · simp [revA_postUsers, hval, hfree]
  · simp [userJson, newUserOf]
  · simpa [newUserOf] using bcryptHash_ne_plain b.Password
  · simp [jwtPayloadOf, userJson, newUserOf]
  · intro db2 n pw w hw
    constructor
    · simp [loginHandler, hw]
    · simp [userJson]

/-- Witness for C3 (amended) at a concrete input: the hypotheses hold
for the fixture body, and the membership component of the conclusion is
extracted at that input. -/
theorem C3_amended_full_record_serialized_witness :
    validRegBody regAlice = true ∧ findOneUser [] regAlice.Username = none ∧
    ("Password", bcryptHash regAlice.Password) ∈ userJson (newUserOf regAlice) :=
  ⟨by decide, rfl,
    (C3_amended_full_record_serialized regAlice [] 0 (by decide) rfl).2.1⟩

/-! ### C4 -/

/-- C4 counterexample: the revision-B `PUT /users/:Username` handler
(src/index.js lines 523-534, cited by the claim) writes
`Password: req.body.Password` — the raw plaintext — into the stored
document, refuting "the Password field stored in the user record is a
one-way hash of the supplied plaintext ... in every revision". -/
theorem C4_counterexample_plaintext_stored_on_put :
    (revB_putUser exAlice "alice77" exBody [exAlice]).2
        = [setUserFields exAlice exBody exBody.Password]
  ∧ (setUserFields exAlice exBody exBody.Password).Password = "NewSecret9"
  ∧ (setUserFields exAlice exBody exBody.Password).Password
      ≠ bcryptHash "NewSecret9" := by
  refine ⟨?_, rfl, ?_⟩
  · decide
  · decide

/-- C4 (amended): registration stores the bcrypt hash of the supplied
password in every revision, and so do the profile-update handlers of
revisions A and C (when the `:Username` route param passes their
validator chain, without which they answer 422 and store nothing); the
profile-update handlers of revisions B and D store the supplied
plaintext verbatim.  The hash is never equal to the plaintext. -/
theorem C4_amended_password_storage
    (u w : User) (t : String) (b : UserBody) (db : List User)
    (hb : validRegBody b = true) (hpt : validUnameParam t = true)
    (heq : u.Username = t)
    (hfind : findOneUser db t = some w) :
    bcryptHash b.Password ≠ b.Password
  ∧ (∀ db0 : List User, findOneUser db0 b.Username = none →
      (revA_postUsers b db0).2 = db0 ++ [newUserOf b]
        ∧ (newUserOf b).Password = bcryptHash b.Password)
  ∧ (revA_putUser u t b db).1
      = ⟨200, Body.userDoc (setUserFields w b (bcryptHash b.Password))⟩
  ∧ (revC_putUser u t b db).1
      = ⟨200, Body.userDoc (setUserFields w b (bcryptHash b.Password))⟩
  ∧ (revB_putUser u t b db).1
      = ⟨200, Body.userDoc (setUserFields w b b.Password)⟩
  ∧ (revD_putUser u t b db).1
      = ⟨200, Body.userDoc (setUserFields w b b.Password)⟩ := by
  refine ⟨bcryptHash_ne_plain b.Password, ?_, ?_, ?_, ?_, ?_⟩
  · intro db0 hfree
    exact ⟨by simp [revA_postUsers, hb, hfree], rfl⟩
  · simp [revA_putUser, hb, hpt, heq, findOneAndUpdate, hfind]
  · simp [revC_putUser, hb, hpt, heq, findOneAndUpdate, hfind]
  · simp [revB_putUser, heq, findOneAndUpdate, hfind]
  · simp [revD_putUser, heq, findOneAndUpdate, hfind]

/-- Witness for C4 (amended) at a concrete input: the hypotheses hold
for the fixture data, and the revision-B plaintext-storage component
of the conclusion is extracted at that input. -/
theorem C4_amended_password_storage_witness :
    validRegBody exBody = true ∧ validUnameParam "alice77" = true ∧
    exAlice.Username = "alice77" ∧
    findOneUser [exAlice] "alice77" = some exAlice ∧
    (revB_putUser exAlice "alice77" exBody [exAlice]).1
      = ⟨200, Body.userDoc (setUserFields exAlice exBody exBody.Password)⟩ :=
  ⟨by decide, by decide, rfl, by decide,
    (C4_amended_password_storage exAlice exAlice "alice77" exBody [exAlice]
      (by decide) (by decide) rfl (by decide)).2.2.2.2.1⟩

/-! ### C5 -/

/-- C5: every failing login — unknown username or wrong password —
produces literally the same response: status 400 with body
`{ message: "Something is not right", user: false }` (src/auth.js
lines 60-65); nothing distinguishes the two failure reasons. -/
theorem C5_login_failures_indistinguishable
    (db1 : List User) (n1 p1 : String)
    (db2 : List User) (n2 p2 : String) (w : User) (now1 now2 : Nat)
    (hunknown : findOneUser db1 n1 = none)
    (hfound : findOneUser db2 n2 = some w)
    (hwrong : bcryptVerify p2 w.Password = false) :
    loginHandler db1 n1 p1 now1
        = ⟨400, LoginBody.failure "Something is not right" none⟩
  ∧ loginHandler db2 n2 p2 now2
        = ⟨400, LoginBody.failure "Something is not right" none⟩
  ∧ loginHandler db1 n1 p1 now1 = loginHandler db2 n2 p2 now2 := by
  have h1 : localAuthenticate db1 n1 p1 = none := by
    simp [localAuthenticate, hunknown]
  have h2 : localAuthenticate db2 n2 p2 = none := by
    simp [localAuthenticate, hfound, hwrong]
  exact ⟨by simp [loginHandler, h1], by simp [loginHandler, h2],
    by simp [loginHandler, h1, h2]⟩

/-- Witness for C5 at a concrete input: an unknown-user attempt against
an empty store and a wrong-password attempt against `exAlice` (whose
stored hash is of `Secret123`) yield equal responses. -/
theorem C5_login_failures_indistinguishable_witness :
    findOneUser [] "ghost" = none ∧
    findOneUser [exAlice] "alice77" = some exAlice ∧
    bcryptVerify "wrong" exAlice.Password = false ∧
    loginHandler [] "ghost" "x" 3 = loginHandler [exAlice] "alice77" "wrong" 9 :=
  ⟨rfl, by decide, by decide,
    (C5_login_failures_indistinguishable [] "ghost" "x" [exAlice] "alice77"
      "wrong" exAlice 3 9 rfl (by decide) (by decide)).2.2⟩

/-! ### C6 -/

/-- C6: every issued token has subject claim equal to the user's
`Username`, expiry exactly 7 days (604800 seconds) after the issuance
instant, and the fixed `HS256` algorithm (src/auth.js lines 21-27). -/
theorem C6_token_subject_expiry_algorithm (u : User) (now : Nat) :
    (signJwt u now).payload.sub = u.Username
  ∧ (signJwt u now).payload.iat = now
  ∧ (signJwt u now).payload.exp = (signJwt u now).payload.iat + 604800
  ∧ (signJwt u now).alg = "HS256" :=
  ⟨rfl, rfl, rfl, rfl⟩

/-! ### C7 -/

/-- A malformed registration body: 2-character non-alphanumeric-free
username is too short, and the email has no `@`. -/
def badBody : UserBody :=
  { Username := "ab", Password := "x", Email := "notanemail",
    Birthday := "" }

/-- C7 counterexample: revision D's `POST /users`
(src/unnamed/part_001 lines 210-232, cited by the claim) has no
validator chain: a malformed body (username shorter than 5, invalid
email) is accepted with 201 and a record is created — refuting "the
registration operation (in every revision) returns status 422 and
creates no user record". -/
theorem C7_counterexample_revD_accepts_malformed :
    validRegBody badBody = false
  ∧ (revD_postUsers badBody []).1.status = 201
  ∧ (revD_postUsers badBody []).2.length = 1 := by
  refine ⟨?_, ?_, ?_⟩
  · decide
  · decide
  · decide

/-- C7 (amended): in the revisions with a validator chain (A, B, C) a
malformed registration body yields 422 and leaves the store unchanged;
revision D performs no input validation and registers any body whose
username is free. -/
theorem C7_amended_validation_by_revision
    (b : UserBody) (db : List User) (hbad : validRegBody b = false) :
    revA_postUsers b db = (⟨422, Body.validationErrors⟩, db)
  ∧ revB_postUsers b db = (⟨422, Body.validationErrors⟩, db)
  ∧ revC_postUsers b db = (⟨422, Body.validationErrors⟩, db)
  ∧ (findOneUser db b.Username = none →
      (revD_postUsers b db).1.status = 201) := by
  refine ⟨?_, ?_, ?_, ?_⟩
  · simp [revA_postUsers, hbad]
  · simp [revB_postUsers, hbad]
  · simp [revC_postUsers, hbad]
  · intro hfree
    simp [revD_postUsers, hfree]

/-- Witness for C7 (amended) at a concrete input: the malformed fixture
body is rejected by revision A with 422 and no state change. -/
theorem C7_amended_validation_by_revision_witness :
    validRegBody badBody = false ∧
    revA_postUsers badBody [] = (⟨422, Body.validationErrors⟩, []) :=
  ⟨by decide,
    (C7_amended_validation_by_revision badBody [] (by decide)).1⟩

/-! ### C8 -/

/-- C8: token issuance is deterministic — two issuance calls with the
same user object and the same issuance second produce byte-identical
compact tokens, the signature being the pure `hmacSHA256` of header,
payload and the module secret (src/auth.js lines 21-27; the HMAC
primitive is modelled from the spec as a pure function). -/
theorem C8_token_issuance_deterministic
    (u1 u2 : User) (t1 t2 : Nat) (hu : u1 = u2) (ht : t1 = t2) :
    generateJWTToken u1 t1 = generateJWTToken u2 t2
  ∧ (signJwt u1 t1).sig
      = hmacSHA256 jwtSecret
          (headerSegment ++ "." ++ encodePayload (jwtPayloadOf u1 t1)) := by
  subst hu
  subst ht
  exact ⟨rfl, rfl⟩

/-- Witness for C8 at a concrete input. -/
theorem C8_token_issuance_deterministic_witness :
    exAlice = exAlice ∧ (5 : Nat) = 5 ∧
    generateJWTToken exAlice 5 = generateJWTToken exAlice 5 :=
  ⟨rfl, rfl, (C8_token_issuance_deterministic exAlice exAlice 5 5 rfl rfl).1⟩

/-! ### C9 -/

/-- C9: adding an already-present movie id to a user's favorites is
idempotent — `$addToSet` leaves `FavoriteMovies` unchanged, the store
is unchanged, and the handler still answers 200 with the (unchanged)
user record, in revisions A (src/index.js lines 203-224), C and D
(src/unnamed/part_001 lines 289-316). -/
theorem C9_addFavorite_idempotent
    (u w : User) (t mid : String) (db : List User)
    (hval : validFav t mid = true) (heq : u.Username = t)
    (hfind : findOneUser db t = some w) (hmem : mid ∈ w.FavoriteMovies) :
    addToSet w.FavoriteMovies mid = w.FavoriteMovies
  ∧ revA_addFavorite u t mid db = (⟨200, Body.userDoc w⟩, db)
  ∧ revC_addFavorite u t mid db = (⟨200, Body.userDoc w⟩, db)
  ∧ revD_addFavorite u t mid db = (⟨200, Body.userDoc w⟩, db) := by
  have hadd : addToSet w.FavoriteMovies mid = w.FavoriteMovies := by
    simp [addToSet, hmem]
  have hfw : (fun x : User =>
      { x with FavoriteMovies := addToSet x.FavoriteMovies mid }) w = w := by
    simp [hadd]
  have hdb : updateFirst db t (fun x : User =>
      { x with FavoriteMovies := addToSet x.FavoriteMovies mid }) = db :=
    updateFirst_eq_self db t _ w hfind hfw
  refine ⟨hadd, ?_, ?_, ?_⟩
  · simp [revA_addFavorite, hval, heq, findOneAndUpdate, hfind, hfw, hdb]
  · simp [revC_addFavorite, hval, heq, findOneAndUpdate, hfind, hfw, hdb]
  · simp [revD_addFavorite, heq, findOneAndUpdate, hfind, hfw, hdb]

/-- A user record whose favorites already contain `exMid`. -/
def exCarol : User :=
  { Username := "carol99", Password := bcryptHash "carolpw",
    Email := "carol@x.com", Birthday := "", FavoriteMovies := [exMid],
    isAdmin := false }

/-- Witness for C9 at a concrete input: `exCarol` already has `exMid`
among her favorites, and the revision-A add leaves everything as is. -/
theorem C9_addFavorite_idempotent_witness :
    validFav "carol99" exMid = true ∧
    findOneUser [exCarol] "carol99" = some exCarol ∧
    exMid ∈ exCarol.FavoriteMovies ∧
    revA_addFavorite exCarol "carol99" exMid [exCarol]
      = (⟨200, Body.userDoc exCarol⟩, [exCarol]) :=
  ⟨by decide, by decide, by decide,
    (C9_addFavorite_idempotent exCarol exCarol "carol99" exMid [exCarol]
      (by decide) rfl (by decide) (by decide)).2.1⟩

/-! ### C10 -/

/-- C10: when no user record matches the target username, the
revision-A favorites add/remove handlers (src/index.js lines 203-247)
answer 200 with a JSON null body — indistinguishable from success
except by the null body — while the corresponding handlers of
revisions B, C and D answer 404. -/
theorem C10_missing_user_favorites
    (u : User) (t mid : String) (db : List User)
    (hval : validFav t mid = true) (heq : u.Username = t)
    (hnone : findOneUser db t = none) :
    (revA_addFavorite u t mid db).1 = ⟨200, Body.nullDoc⟩
  ∧ (revA_removeFavorite u t mid db).1 = ⟨200, Body.nullDoc⟩
  ∧ (revB_addFavorite u t mid db).1.status = 404
  ∧ (revB_removeFavorite u t mid db).1.status = 404
  ∧ (revC_addFavorite u t mid db).1.status = 404
  ∧ (revC_removeFavorite u t mid db).1.status = 404
  ∧ (revD_addFavorite u t mid db).1.status = 404
  ∧ (revD_removeFavorite u t mid db).1.status = 404 := by
  refine ⟨?_, ?_, ?_, ?_, ?_, ?_, ?_, ?_⟩
  · simp [revA_addFavorite, hval, heq, findOneAndUpdate, hnone]
  · simp [revA_removeFavorite, hval, heq, findOneAndUpdate, hnone]
  · simp [revB_addFavorite, heq, findOneAndUpdate, hnone]
  · simp [revB_removeFavorite, heq, findOneAndUpdate, hnone]
  · simp [revC_addFavorite, hval, heq, findOneAndUpdate, hnone]
  · simp [revC_removeFavorite, hval, heq, findOneAndUpdate, hnone]
  · simp [revD_addFavorite, heq, findOneAndUpdate, hnone]
  · simp [revD_removeFavorite, heq, findOneAndUpdate, hnone]

/-- A requester whose username matches no stored record (e.g. the
record was deleted after the token was issued). -/
def exGhost : User :=
  { Username := "ghost77", Password := bcryptHash "ghostpw",
    Email := "ghost@x.com", Birthday := "", FavoriteMovies := [],
    isAdmin := false }

/-- Witness for C10 at a concrete input: against an empty store, the
revision-A add answers 200/null and the revision-D add answers 404. -/
theorem C10_missing_user_favorites_witness :
    validFav "ghost77" exMid = true ∧
    findOneUser [] "ghost77" = none ∧
    (revA_addFavorite exGhost "ghost77" exMid []).1 = ⟨200, Body.nullDoc⟩ :=
  ⟨by decide, rfl,
    (C10_missing_user_favorites exGhost "ghost77" exMid []
      (by decide) rfl rfl).1⟩
